import Mathlib

/-!
Verification of the risk-monitor backend's broadcast/subscription engine.

Shallow embedding of the repository's core:
  * `services/query.py` — `get_latest_snapshot`, `get_option_latest`:
    snapshot construction (grouping rows by expiry, per-expiry stable sort
    by (strike, type)) and the error handling of the fetch layer.
  * `routes/ws.py` — `broadcast_loop` (one cycle of the scheduler and its
    fan-out, including the per-client preparation loop, the batched
    `asyncio.gather` send phase, and dead-client cleanup) and
    `websocket_endpoint` (the per-connection session step: subscribe /
    unsubscribe / pong / unknown messages, idle-timeout ping, cleanup).

Modelling conventions:
  * database / collaborator outcomes are passed explicitly (`Except`,
    `CallResult`), so timeouts and raised exceptions are values;
  * numeric payload fields (prices, greeks) are carried as `Int`: no claim
    performs arithmetic on them, only structural properties matter;
  * `datetime.strftime` results are carried as the already-formatted
    strings;
  * per-send outcomes on the websocket are values of `SendOutcome`; a
    duplex channel delivers the messages actually sent to one client in
    the order their sends were issued.
-/

namespace RiskMonitor

/-- Python exception classes relevant to `services/query.py`: the fetch
functions catch exactly `(ValueError, KeyError)`; anything else (for
example a psycopg2 database error) propagates to the caller. -/
inductive PyErr where
  | valueError
  | keyError
  | dbError
deriving DecidableEq, Repr

/-- The handlers in `query.py` are `except (ValueError, KeyError)`. -/
def isCaughtByQueryHandlers : PyErr → Bool
  | .valueError => true
  | .keyError => true
  | .dbError => false

/-- One row of the snapshot query in `get_latest_snapshot`:
`SELECT DISTINCT ON (symbol, strike, expiry) symbol, strike, expiry,
option_type, ltp, overall_risk_score, recommendation`. The `expiry`
field is the `strftime('%Y-%m-%d')` string. -/
structure DBRow where
  symbol : String
  strike : Int
  expiry : String
  option_type : String
  ltp : Int
  overall_risk_score : Int
  recommendation : String
deriving DecidableEq, Repr

/-- One entry of an expiry's list in the snapshot, as built by
`get_latest_snapshot` (`result[expiry_str].append({...})`). -/
structure ContractRow where
  symbol : String
  strike : Int
  type : String
  price : Int
  risk_score : Int
  recommendation : String
deriving DecidableEq, Repr

/-- Python string comparison (`a < b` on `str`): lexicographic over the
characters by code point. -/
def charsLT : List Char → List Char → Bool
  | [], [] => false
  | [], _ :: _ => true
  | _ :: _, [] => false
  | a :: as, b :: bs =>
      if a.val.toNat < b.val.toNat then true
      else if b.val.toNat < a.val.toNat then false
      else charsLT as bs

/-- Python `a <= b` on strings: the negation of `b < a`. -/
def pyStrLE (a b : String) : Bool :=
  !(charsLT b.data a.data)

/-- The comparison is asymmetric. -/
theorem charsLT_asymm : ∀ x y : List Char, charsLT x y = true → charsLT y x = false
  | [], [], h => by simp [charsLT] at h
  | [], _ :: _, _ => rfl
  | _ :: _, [], h => by simp [charsLT] at h
  | a :: as, b :: bs, h => by
      by_cases h1 : a.val.toNat < b.val.toNat
      · simp [charsLT, Nat.lt_asymm h1, h1]
      · by_cases h2 : b.val.toNat < a.val.toNat
        · simp [charsLT, h1, h2] at h
        · have h3 : charsLT as bs = true := by simpa [charsLT, h1, h2] using h
          simp [charsLT, h1, h2, charsLT_asymm as bs h3]

/-- Negative transitivity: `b ≥ a` and `c ≥ b` give `c ≥ a`. -/
theorem charsLT_neg_trans : ∀ a b c : List Char,
    charsLT b a = false → charsLT c b = false → charsLT c a = false
  | [], b, c, _, _ => by
      cases c with
      | nil => rfl
      | cons z zs => rfl
  | _ :: _, [], _, hba, _ => by simp [charsLT] at hba
  | _ :: _, _ :: _, [], _, hcb => by simp [charsLT] at hcb
  | x :: xs, y :: ys, z :: zs, hba, hcb => by
      have hyx : ¬ y.val.toNat < x.val.toNat := by
        intro h
        simp [charsLT, h] at hba
      have hzy : ¬ z.val.toNat < y.val.toNat := by
        intro h
        simp [charsLT, h] at hcb
      have hzx : ¬ z.val.toNat < x.val.toNat := fun h =>
        hzy (Nat.lt_of_lt_of_le h (Nat.le_of_not_lt hyx))
      by_cases hxz : x.val.toNat < z.val.toNat
      · simp [charsLT, hzx, hxz]
      · have hxy : ¬ x.val.toNat < y.val.toNat := fun h =>
          hxz (Nat.lt_of_lt_of_le h (Nat.le_of_not_lt hzy))
        have hyz : ¬ y.val.toNat < z.val.toNat := fun h =>
          hxz (Nat.lt_of_le_of_lt (Nat.le_of_not_lt hyx) h)
        have h1 : charsLT ys xs = false := by simpa [charsLT, hyx, hxy] using hba
        have h2 : charsLT zs ys = false := by simpa [charsLT, hzy, hyz] using hcb
        simp [charsLT, hzx, hxz, charsLT_neg_trans xs ys zs h1 h2]

/-- The sort key of `result[expiry_str].sort(key=lambda x: (x['strike'],
x['type']))`: lexicographic on (strike, type), with the type strings
compared the way Python compares `str` (code-point lexicographic). -/
def rowLE (a b : ContractRow) : Prop :=
  a.strike < b.strike ∨ (a.strike = b.strike ∧ pyStrLE a.type b.type = true)

instance : DecidableRel rowLE := fun a b =>
  inferInstanceAs
    (Decidable (a.strike < b.strike ∨ (a.strike = b.strike ∧ pyStrLE a.type b.type = true)))

instance : IsTotal ContractRow rowLE where
  total a b := by
    rcases lt_trichotomy a.strike b.strike with h | h | h
    · exact Or.inl (Or.inl h)
    · by_cases ht : charsLT b.type.data a.type.data = true
      · exact Or.inr (Or.inr ⟨h.symm, by simp [pyStrLE, charsLT_asymm _ _ ht]⟩)
      · have hf : charsLT b.type.data a.type.data = false := by simpa using ht
        exact Or.inl (Or.inr ⟨h, by simp [pyStrLE, hf]⟩)
    · exact Or.inr (Or.inl h)

instance : IsTrans ContractRow rowLE where
  trans a b c hab hbc := by
    rcases hab with h1 | ⟨h1, h1t⟩ <;> rcases hbc with h2 | ⟨h2, h2t⟩
    · exact Or.inl (h1.trans h2)
    · exact Or.inl (by rw [← h2]; exact h1)
    · exact Or.inl (by rw [h1]; exact h2)
    · refine Or.inr ⟨h1.trans h2, ?_⟩
      simp only [pyStrLE, Bool.not_eq_true', Bool.not_eq_false] at h1t h2t ⊢
      exact charsLT_neg_trans a.type.data b.type.data c.type.data h1t h2t

/-- The dict entry `get_latest_snapshot` appends for one database row. -/
def contractRowOfDB (r : DBRow) : ContractRow :=
  { symbol := r.symbol
    strike := r.strike
    type := r.option_type
    price := r.ltp
    risk_score := r.overall_risk_score
    recommendation := r.recommendation }

/-- Appending one row to the insertion-ordered `result` dict
(`result[expiry_str].append(...)`, creating the key on first sight). -/
def addRow (acc : List (String × List ContractRow)) (e : String) (row : ContractRow) :
    List (String × List ContractRow) :=
  match acc with
  | [] => [(e, [row])]
  | (k, rs) :: rest =>
      if k = e then (k, rs ++ [row]) :: rest else (k, rs) :: addRow rest e row

/-- The row-processing loop of `get_latest_snapshot`: CE-connection rows
are processed first, then PE-connection rows, grouped by expiry string. -/
def buildExpiries (rows : List DBRow) : List (String × List ContractRow) :=
  rows.foldl (fun acc r => addRow acc r.expiry (contractRowOfDB r)) []

/-- The per-expiry sort pass: `result[expiry_str].sort(key=lambda x:
(x['strike'], x['type']))`. Python's `list.sort` is stable; it is
modelled by the stable `List.insertionSort`. -/
def sortExpiries (m : List (String × List ContractRow)) :
    List (String × List ContractRow) :=
  m.map (fun p => (p.1, List.insertionSort rowLE p.2))

/-- The value `get_latest_snapshot` returns: a timestamp string and the
per-expiry contract lists. -/
structure Snapshot where
  timestamp : String
  expiries : List (String × List ContractRow)
deriving DecidableEq, Repr

/-- Embedding of `get_latest_snapshot`. `ts` is the
`datetime.now().strftime("%H:%M:%S")` string; `dbres` is the combined
outcome of the two cursor queries (CE rows, PE rows), or the exception
they raised. Only `ValueError` and `KeyError` are caught (returning the
empty-expiries snapshot); other exceptions propagate. -/
def get_latest_snapshot (ts : String)
    (dbres : Except PyErr (List DBRow × List DBRow)) : Except PyErr Snapshot :=
  match dbres with
  | .ok rows => .ok ⟨ts, sortExpiries (buildExpiries (rows.1 ++ rows.2))⟩
  | .error e => if isCaughtByQueryHandlers e then .ok ⟨ts, []⟩ else .error e

/-- One row of the `get_option_latest` join query (string fields carry
the already-formatted values). -/
structure MetricsRow where
  time : String
  symbol : String
  strike : Int
  expiry : String
  option_type : String
  ltp : Int
  delta : Int
  gamma : Int
  theta : Int
  vega : Int
  iv : Int
  oi : Int
  volume : Int
  var_1day : Int
  risk_pct : Int
  time_risk : Int
  theta_burn_pct : Int
  moneyness : Int
  liquidity_score : Int
  overall_risk_score : Int
  recommendation : String
  dte : Int
  expected_move : Int
deriving DecidableEq, Repr

/-- The dict `get_option_latest` returns (note the rename
`risk_score := overall_risk_score`). -/
structure Metrics where
  time : String
  symbol : String
  strike : Int
  expiry : String
  option_type : String
  ltp : Int
  delta : Int
  gamma : Int
  theta : Int
  vega : Int
  iv : Int
  oi : Int
  volume : Int
  var_1day : Int
  risk_pct : Int
  time_risk : Int
  theta_burn_pct : Int
  moneyness : Int
  liquidity_score : Int
  risk_score : Int
  recommendation : String
  dte : Int
  expected_move : Int
deriving DecidableEq, Repr

/-- Field-by-field construction of the response dict from the fetched row. -/
def metricsOfRow (r : MetricsRow) : Metrics :=
  { time := r.time
    symbol := r.symbol
    strike := r.strike
    expiry := r.expiry
    option_type := r.option_type
    ltp := r.ltp
    delta := r.delta
    gamma := r.gamma
    theta := r.theta
    vega := r.vega
    iv := r.iv
    oi := r.oi
    volume := r.volume
    var_1day := r.var_1day
    risk_pct := r.risk_pct
    time_risk := r.time_risk
    theta_burn_pct := r.theta_burn_pct
    moneyness := r.moneyness
    liquidity_score := r.liquidity_score
    risk_score := r.overall_risk_score
    recommendation := r.recommendation
    dte := r.dte
    expected_move := r.expected_move }

/-- Pool selection in `get_option_latest` / `get_option_history`:
`is_call = symbol.endswith('CE')`. It does not affect the returned
value's shape, only which pool serves the query. -/
def isCallSymbol (symbol : String) : Bool :=
  symbol.endsWith "CE"

/-- Embedding of `get_option_latest`. `dbres` is `cursor.fetchone()`'s
outcome: `some row`, `none` (no matching record), or a raised exception.
Only `ValueError` and `KeyError` are caught (returning the not-found
result `none`); other exceptions propagate. The `symbol`/`expiry`
arguments parametrise the query itself. -/
def get_option_latest (symbol expiry : String)
    (dbres : Except PyErr (Option MetricsRow)) : Except PyErr (Option Metrics) :=
  match dbres with
  | .ok none => .ok none
  | .ok (some row) => .ok (some (metricsOfRow row))
  | .error e => if isCaughtByQueryHandlers e then .ok none else .error e

/-- The expiries of a fetch outcome (empty when the fetch raised). -/
def expiriesOf : Except PyErr Snapshot → List (String × List ContractRow)
  | .ok s => s.expiries
  | .error _ => []

/-! ### State of `routes/ws.py`

The module-level shared state: `connected_clients` (a set of websocket
handles), `client_subscriptions` (a dict from handle to its single
subscription), and `_last_snapshot` (the cache). A websocket handle is
opaque; identity is reference equality, modelled by a numbered handle. -/

/-- An opaque websocket handle (`ClientConnection`). -/
structure Client where
  id : Nat
deriving DecidableEq, Repr

/-- A subscription entry `{"symbol": ..., "expiry": ...}`. -/
structure Subscription where
  symbol : String
  expiry : String
deriving DecidableEq, Repr

/-- The module-level mutable state of `routes/ws.py`. The set and the
dict are modelled by insertion-ordered duplicate-free lists. -/
structure WsState where
  connected_clients : List Client
  client_subscriptions : List (Client × Subscription)
  last_snapshot : Option Snapshot
deriving DecidableEq, Repr

/-- `set.add`: a no-op when the element is already present. -/
def setAdd (l : List Client) (c : Client) : List Client :=
  if c ∈ l then l else l ++ [c]

/-- `set.discard`: removes the element if present. -/
def setDiscard (l : List Client) (c : Client) : List Client :=
  l.filter (fun x => decide (x ≠ c))

/-- `dict[k] = v`: overwrites in place or appends a new entry. -/
def dictInsert (d : List (Client × Subscription)) (c : Client) (s : Subscription) :
    List (Client × Subscription) :=
  match d with
  | [] => [(c, s)]
  | (k, v) :: rest =>
      if k = c then (c, s) :: rest else (k, v) :: dictInsert rest c s

/-- `dict.pop(k, None)`: removes the entry if present. -/
def dictPop (d : List (Client × Subscription)) (c : Client) :
    List (Client × Subscription) :=
  d.filter (fun p => decide (p.1 ≠ c))

/-- `dict.get(k)`. -/
def subLookup (c : Client) : List (Client × Subscription) → Option Subscription
  | [] => none
  | (k, v) :: rest => if k = c then some v else subLookup c rest

/-- The `finally` block of `websocket_endpoint`:
`connected_clients.discard(websocket); client_subscriptions.pop(websocket, None)`. -/
def cleanup (c : Client) (st : WsState) : WsState :=
  { st with
    connected_clients := setDiscard st.connected_clients c
    client_subscriptions := dictPop st.client_subscriptions c }

/-! ### One cycle of `broadcast_loop`

The loop body: fetch the snapshot under a 10-unit timeout (on timeout,
sleep 30 and continue; a raised exception falls to the catch-all, which
also sleeps 30); on success overwrite `_last_snapshot`; skip fan-out when
the snapshot is empty; otherwise iterate the connected clients, queueing
a snapshot send task for each and — when subscribed — awaiting one
metrics fetch (5-unit timeout) and queueing a greeks send task when it
returns data. A client is added to `dead` only when the preparation body
raises outside the inner timeout handler (in this loop the only awaited
call is the metrics fetch, so only its non-timeout exceptions reach the
outer handlers). The queued send tasks then run concurrently in
`asyncio.gather(..., return_exceptions=True)`, whose failures are only
logged. Finally `dead` is removed from both registries and the loop
sleeps 30. -/

/-- Outcome of an awaited collaborator call wrapped in
`asyncio.wait_for`: completed with a value, timed out, or raised. -/
inductive CallResult (α : Type) where
  | ok (v : α)
  | timeout
  | exn
deriving DecidableEq, Repr

/-- Outcome of one `websocket.send_text` wrapped in `asyncio.wait_for`:
delivered, channel closed/broken (`ConnectionClosedOK/Error`), or send
timeout. -/
inductive SendOutcome where
  | ok
  | closed
  | timedOut
deriving DecidableEq, Repr

/-- Message kind of a queued send task in the fan-out. -/
inductive MsgTag where
  | snapshot
  | greeks
deriving DecidableEq, Repr

/-- One entry of `send_tasks`, in queueing order. -/
structure SendTask where
  client : Client
  tag : MsgTag
deriving DecidableEq, Repr

/-- One `get_option_latest` call issued during the fan-out, with the
symbol and expiry it was issued for. -/
structure MetricsReq where
  client : Client
  symbol : String
  expiry : String
deriving DecidableEq, Repr

/-- The collaborator behaviour during one cycle: the snapshot fetch
outcome, each subscribed client's metrics-fetch outcome, and each
client's per-send outcomes. -/
structure CycleEnv where
  fetch : CallResult Snapshot
  metricsFetch : Client → CallResult (Option Metrics)
  sendSnap : Client → SendOutcome
  sendGreeks : Client → SendOutcome

/-- What the preparation loop accumulates for one client. -/
structure PrepOut where
  tasks : List SendTask
  reqs : List MetricsReq
  dead : List Client
deriving DecidableEq, Repr

/-- The body of `for client in list(connected_clients)` for one client:
always queue the snapshot send task; when subscribed, await the metrics
fetch — a timeout is caught by the inner handler (logged, nothing
queued), a value queues the greeks task, an absent record only logs, and
any other exception reaches the outer `except` blocks, which mark the
client dead (the already-queued snapshot task stays queued). -/
def prepClient (subs : List (Client × Subscription)) (env : CycleEnv) (c : Client) :
    PrepOut :=
  match subLookup c subs with
  | none => ⟨[⟨c, .snapshot⟩], [], []⟩
  | some sub =>
      match env.metricsFetch c with
      | .ok (some _) => ⟨[⟨c, .snapshot⟩, ⟨c, .greeks⟩], [⟨c, sub.symbol, sub.expiry⟩], []⟩
      | .ok none => ⟨[⟨c, .snapshot⟩], [⟨c, sub.symbol, sub.expiry⟩], []⟩
      | .timeout => ⟨[⟨c, .snapshot⟩], [⟨c, sub.symbol, sub.expiry⟩], []⟩
      | .exn => ⟨[⟨c, .snapshot⟩], [⟨c, sub.symbol, sub.expiry⟩], [c]⟩

/-- The whole preparation loop, in iteration order. -/
def prepLoop (subs : List (Client × Subscription)) (env : CycleEnv) :
    List Client → PrepOut
  | [] => ⟨[], [], []⟩
  | c :: cs =>
      let h := prepClient subs env c
      let t := prepLoop subs env cs
      ⟨h.tasks ++ t.tasks, h.reqs ++ t.reqs, h.dead ++ t.dead⟩

/-- The outcome of executing one queued send task in the gather phase. -/
def sendOutcomeOf (env : CycleEnv) (t : SendTask) : SendOutcome :=
  match t.tag with
  | .snapshot => env.sendSnap t.client
  | .greeks => env.sendGreeks t.client

/-- `total_options = sum(len(v) for v in snapshot.get('expiries', {}).values())`. -/
def totalOptions (s : Snapshot) : Nat :=
  (s.expiries.map (fun p => p.2.length)).sum

/-- The observable result of one loop iteration: the state afterwards,
the messages actually delivered (send tasks whose send completed),
all queued send tasks in queueing order, the metrics fetches issued,
and the units slept before the next iteration. -/
structure CycleResult where
  state : WsState
  delivered : List SendTask
  tasks : List SendTask
  reqs : List MetricsReq
  sleep : Nat
deriving Repr

/-- One iteration of `broadcast_loop`. On fetch timeout the body logs,
sleeps 30 and continues; on any other fetch exception the catch-all logs
and the bottom sleep runs — in both cases the cache, the registries and
the clients are untouched. On success the cache is overwritten, an empty
snapshot skips fan-out, and otherwise the preparation loop runs, the
gathered sends execute (failures only logged), and the clients marked
dead are removed from both registries. -/
def broadcastCycle (st : WsState) (env : CycleEnv) : CycleResult :=
  match env.fetch with
  | .timeout => ⟨st, [], [], [], 30⟩
  | .exn => ⟨st, [], [], [], 30⟩
  | .ok snap =>
      let st1 := { st with last_snapshot := some snap }
      if totalOptions snap = 0 then ⟨st1, [], [], [], 30⟩
      else
        let prep := prepLoop st1.client_subscriptions env st1.connected_clients
        let delivered := prep.tasks.filter (fun t => decide (sendOutcomeOf env t = .ok))
        let st2 := { st1 with
          connected_clients :=
            st1.connected_clients.filter (fun c => decide (c ∉ prep.dead))
          client_subscriptions :=
            st1.client_subscriptions.filter (fun p => decide (p.1 ∉ prep.dead)) }
        ⟨st2, delivered, prep.tasks, prep.reqs, 30⟩

/-! ### One step of the `websocket_endpoint` receive loop

Per received event: a 90-unit idle timeout sends a ping (a ping-send
failure breaks the loop); a JSON decode error replies with an error
message; a subscribe message validates its fields, overwrites the
subscription, then attempts one immediate metrics fetch whose timeout or
exception is swallowed (subscription kept, no reply) and whose reply
send failures are caught by the same handler (connection stays open);
an unsubscribe pops the entry and acknowledges; a pong or an unknown
message does nothing. A transport disconnect or an uncaught error ends
the loop, and the `finally` block always removes the client from both
registries. -/

/-- A parsed inbound JSON object, seen through the keys the handler
tests: presence of `subscribe` / `unsubscribe` / `pong`, and the values
of `data.get("subscribe")` and `data.get("expiry")` (`none` models an
absent key or JSON null). -/
structure Inbound where
  hasSubscribe : Bool
  subscribeVal : Option String
  expiryVal : Option String
  hasUnsubscribe : Bool
  hasPong : Bool
deriving DecidableEq, Repr

/-- What one wait on `websocket.receive_text` produced: an idle timeout,
a message (with `none` marking a JSON decode failure), or a transport
disconnect / uncaught error. -/
inductive RecvEvent where
  | timeout
  | message (parsed : Option Inbound)
  | disconnect
deriving DecidableEq, Repr

/-- A message the server sends to this client during the step. -/
inductive Reply where
  | snapshotMsg (s : Snapshot)
  | greeksMsg (m : Metrics)
  | pingMsg
  | infoMsg (message : String)
  | errorMsg (message : String)
deriving DecidableEq, Repr

/-- Whether the receive loop keeps running after the step. -/
inductive SessionStatus where
  | open_
  | closed
deriving DecidableEq, Repr

/-- Collaborator behaviour during one session step: the immediate
post-subscribe metrics fetch outcome and the outcome of the single send
this step performs (ping or reply). -/
structure SessionEnv where
  metricsRes : CallResult (Option Metrics)
  sendRes : SendOutcome

/-- The observable result of one step: the state afterwards, the
messages actually delivered to this client, and whether the loop
continues. -/
structure StepResult where
  state : WsState
  replies : List Reply
  status : SessionStatus
deriving Repr

/-- Python truthiness of `data.get(...)` for a string-or-absent value:
`None` and the empty string are falsy. -/
def truthy : Option String → Bool
  | none => false
  | some s => decide (s ≠ "")

/-- One iteration of the receive loop of `websocket_endpoint` for client
`c`, including the unconditional `finally` cleanup whenever the loop
ends. -/
def sessionStep (st : WsState) (c : Client) (ev : RecvEvent) (env : SessionEnv) :
    StepResult :=
  match ev with
  | .disconnect => ⟨cleanup c st, [], .closed⟩
  | .timeout =>
      match env.sendRes with
      | .ok => ⟨st, [.pingMsg], .open_⟩
      | _ => ⟨cleanup c st, [], .closed⟩
  | .message none =>
      match env.sendRes with
      | .ok => ⟨st, [.errorMsg "Invalid JSON format"], .open_⟩
      | _ => ⟨cleanup c st, [], .closed⟩
  | .message (some data) =>
      if data.hasSubscribe then
        if truthy data.subscribeVal && truthy data.expiryVal then
          let sub : Subscription := ⟨data.subscribeVal.getD "", data.expiryVal.getD ""⟩
          let st1 := { st with
            client_subscriptions := dictInsert st.client_subscriptions c sub }
          match env.metricsRes with
          | .ok (some m) =>
              match env.sendRes with
              | .ok => ⟨st1, [.greeksMsg m], .open_⟩
              | _ => ⟨st1, [], .open_⟩
          | .ok none =>
              match env.sendRes with
              | .ok => ⟨st1, [.infoMsg "Subscribed - waiting for next update"], .open_⟩
              | _ => ⟨st1, [], .open_⟩
          | .timeout => ⟨st1, [], .open_⟩
          | .exn => ⟨st1, [], .open_⟩
        else
          match env.sendRes with
          | .ok => ⟨st, [.errorMsg "Missing symbol or expiry"], .open_⟩
          | _ => ⟨cleanup c st, [], .closed⟩
      else if data.hasUnsubscribe then
        let st1 := { st with client_subscriptions := dictPop st.client_subscriptions c }
        match env.sendRes with
        | .ok => ⟨st1, [.infoMsg "Unsubscribed successfully"], .open_⟩
        | _ => ⟨cleanup c st1, [], .closed⟩
      else if data.hasPong then ⟨st, [], .open_⟩
      else ⟨st, [], .open_⟩

/-! ### The registry operations as a transition system

The primitive mutations of `connected_clients` / `client_subscriptions`
performed by the endpoint (connect on accept, subscribe, unsubscribe,
the `finally` cleanup) and by the scheduler's dead-client cleanup.
`sessionStep` and `broadcastCycle` perform exactly these mutations. -/

/-- One registry mutation. -/
inductive RegOp where
  | connect (c : Client)
  | subscribe (c : Client) (sub : Subscription)
  | unsubscribe (c : Client)
  | disconnectCleanup (c : Client)
  | schedulerCleanup (dead : List Client)
deriving Repr

/-- Applying one registry mutation, exactly as the source performs it. -/
def applyOp (st : WsState) : RegOp → WsState
  | .connect c => { st with connected_clients := setAdd st.connected_clients c }
  | .subscribe c sub =>
      { st with client_subscriptions := dictInsert st.client_subscriptions c sub }
  | .unsubscribe c =>
      { st with client_subscriptions := dictPop st.client_subscriptions c }
  | .disconnectCleanup c => cleanup c st
  | .schedulerCleanup dead =>
      { st with
        connected_clients := st.connected_clients.filter (fun c => decide (c ∉ dead))
        client_subscriptions :=
          st.client_subscriptions.filter (fun p => decide (p.1 ∉ dead)) }

/-- A sequence of registry mutations. -/
def applyOps (st : WsState) (ops : List RegOp) : WsState :=
  ops.foldl applyOp st

/-- The no-orphan invariant: every SubscriptionRegistry entry belongs to
a client in ConnectionRegistry. -/
def RegInv (st : WsState) : Prop :=
  ∀ p ∈ st.client_subscriptions, p.1 ∈ st.connected_clients

/-- The guard under which subscribe is safe: the subscribing client is
still connected (true for every other operation). -/
def subGuard (op : RegOp) (st : WsState) : Bool :=
  match op with
  | .subscribe c _ => decide (c ∈ st.connected_clients)
  | _ => true

/-- The state at process start: no clients, no subscriptions, no cache. -/
def initState : WsState := ⟨[], [], none⟩

instance (st : WsState) : Decidable (RegInv st) :=
  inferInstanceAs (Decidable (∀ p ∈ st.client_subscriptions, p.1 ∈ st.connected_clients))

/-- The send tasks of one cycle belonging to one client, in queue order. -/
def tasksFor (c : Client) (ts : List SendTask) : List SendTask :=
  ts.filter (fun t => decide (t.client = c))

/-- The metrics fetches of one cycle issued for one client. -/
def reqsFor (c : Client) (rs : List MetricsReq) : List MetricsReq :=
  rs.filter (fun r => decide (r.client = c))

/-- The combined row list a fetch outcome was built from (CE rows first,
then PE rows, as in the source's connection loop). -/
def rowsOf : Except PyErr (List DBRow × List DBRow) → List DBRow
  | .ok rows => rows.1 ++ rows.2
  | .error _ => []

/-! ### Concrete fixtures used by witnesses and counterexamples -/

/-- A concrete client handle. -/
def c0 : Client := ⟨0⟩

/-- A concrete subscription. -/
def subA : Subscription := ⟨"NIFTY24000CE", "2026-02-24"⟩

/-- A second, different subscription. -/
def subB : Subscription := ⟨"NIFTY24100CE", "2026-03-03"⟩

/-- A concrete contract row. -/
def rowCE : ContractRow := ⟨"NIFTY24000CE", 24000, "CE", 120, 42, "HOLD"⟩

/-- A concrete non-empty snapshot. -/
def snap1 : Snapshot := ⟨"10:00:00", [("2026-02-24", [rowCE])]⟩

/-- Database rows arriving out of strike order for one expiry. -/
def dbr1 : DBRow := ⟨"NIFTY24100CE", 24100, "2026-02-24", "CE", 95, 55, "SELL"⟩

/-- A second database row, lower strike than `dbr1`. -/
def dbr2 : DBRow := ⟨"NIFTY24000CE", 24000, "2026-02-24", "CE", 120, 42, "HOLD"⟩

/-- A put row at the same strike as `dbr2`. -/
def dbr3 : DBRow := ⟨"NIFTY24000PE", 24000, "2026-02-24", "PE", 80, 47, "HOLD"⟩

/-- A cycle in which every collaborator behaves. -/
def envAllOk : CycleEnv :=
  { fetch := .ok snap1
    metricsFetch := fun _ => .ok none
    sendSnap := fun _ => .ok
    sendGreeks := fun _ => .ok }

/-- A cycle whose snapshot fetch times out. -/
def envFetchTimeout : CycleEnv :=
  { fetch := .timeout
    metricsFetch := fun _ => .ok none
    sendSnap := fun _ => .ok
    sendGreeks := fun _ => .ok }

/-- A cycle in which every client's snapshot send exceeds the 5-unit
per-send timeout (the fetches all behave). -/
def envSendTimeout : CycleEnv :=
  { fetch := .ok snap1
    metricsFetch := fun _ => .ok none
    sendSnap := fun _ => .timedOut
    sendGreeks := fun _ => .ok }

/-- A cycle in which the per-client metrics fetch raises a non-timeout
exception, the one path that reaches the outer dead-marking handlers. -/
def envMetricsExn : CycleEnv :=
  { fetch := .ok snap1
    metricsFetch := fun _ => .exn
    sendSnap := fun _ => .ok
    sendGreeks := fun _ => .ok }

/-- A subscribe message for `subA`. -/
def msgSubscribeA : RecvEvent :=
  .message (some ⟨true, some "NIFTY24000CE", some "2026-02-24", false, false⟩)

/-- A subscribe message for `subB`. -/
def msgSubscribeB : RecvEvent :=
  .message (some ⟨true, some "NIFTY24100CE", some "2026-03-03", false, false⟩)

/-- A registry state reached by a legitimate interleaving: client `c0`
connects and subscribes, a broadcast cycle marks it dead (its metrics
fetch raised) and reaps it from both registries, and then its
still-running session processes another subscribe message. -/
def orphanState : WsState :=
  (sessionStep
    (broadcastCycle
      (sessionStep (applyOp initState (.connect c0)) c0 msgSubscribeA ⟨.ok none, .ok⟩).state
      envMetricsExn).state
    c0 msgSubscribeB ⟨.ok none, .ok⟩).state

/-! ### Helper lemmas -/

/-- Equation lemma for the empty preparation loop. -/
theorem prepLoop_nil (subs : List (Client × Subscription)) (env : CycleEnv) :
    prepLoop subs env [] = ⟨[], [], []⟩ := rfl

/-- Equation lemma for one step of the preparation loop. -/
theorem prepLoop_cons (subs : List (Client × Subscription)) (env : CycleEnv)
    (c : Client) (cs : List Client) :
    prepLoop subs env (c :: cs) =
      ⟨(prepClient subs env c).tasks ++ (prepLoop subs env cs).tasks,
       (prepClient subs env c).reqs ++ (prepLoop subs env cs).reqs,
       (prepClient subs env c).dead ++ (prepLoop subs env cs).dead⟩ := rfl

/-- Overwriting a dict entry makes it the looked-up value. -/
theorem subLookup_dictInsert_self (d : List (Client × Subscription)) (c : Client)
    (s : Subscription) : subLookup c (dictInsert d c s) = some s := by
  induction d with
  | nil => simp [dictInsert, subLookup]
  | cons p d ih =>
      obtain ⟨k, v⟩ := p
      by_cases h : k = c
      · simp [dictInsert, subLookup, h]
      · simp [dictInsert, subLookup, h, ih]

/-- Equation lemma for `dictInsert` on a cons cell. -/
theorem dictInsert_cons (k : Client) (v : Subscription)
    (rest : List (Client × Subscription)) (c : Client) (s : Subscription) :
    dictInsert ((k, v) :: rest) c s =
      if k = c then (c, s) :: rest else (k, v) :: dictInsert rest c s := rfl

/-- A member of an updated dict is the new entry or an old one. -/
theorem mem_dictInsert (d : List (Client × Subscription)) (c : Client)
    (s : Subscription) (p : Client × Subscription) :
    p ∈ dictInsert d c s → p = (c, s) ∨ p ∈ d := by
  induction d with
  | nil =>
      intro hp
      simp only [dictInsert, List.mem_singleton] at hp
      exact Or.inl hp
  | cons q d ih =>
      obtain ⟨k, v⟩ := q
      intro hp
      by_cases h : k = c
      · subst h
        rw [dictInsert_cons, if_pos rfl] at hp
        rcases List.mem_cons.mp hp with h1 | h1
        · exact Or.inl h1
        · exact Or.inr (List.mem_cons_of_mem _ h1)
      · rw [dictInsert_cons, if_neg h] at hp
        rcases List.mem_cons.mp hp with h1 | h1
        · exact Or.inr (by simp [h1])
        · rcases ih h1 with h2 | h2
          · exact Or.inl h2
          · exact Or.inr (List.mem_cons_of_mem _ h2)

/-- Filtering by a key that every element has is the identity. -/
theorem filter_key_self {α : Type} (key : α → Client) (c : Client) (l : List α)
    (h : ∀ x ∈ l, key x = c) :
    l.filter (fun x => decide (key x = c)) = l := by
  induction l with
  | nil => rfl
  | cons x l ih =>
      have hx : key x = c := h x (List.mem_cons_self x l)
      rw [List.filter_cons, if_pos (by simp [hx]),
        ih (fun y hy => h y (List.mem_cons_of_mem x hy))]

/-- Filtering by a key that no element has is empty. -/
theorem filter_key_nil {α : Type} (key : α → Client) (c : Client) (l : List α)
    (h : ∀ x ∈ l, key x ≠ c) :
    l.filter (fun x => decide (key x = c)) = [] := by
  rw [List.filter_eq_nil_iff]
  intro a ha
  simp [h a ha]

/-- Every send task the preparation body queues for a client carries
that client. -/
theorem prepClient_tasks_client (subs : List (Client × Subscription)) (env : CycleEnv)
    (c : Client) : ∀ t ∈ (prepClient subs env c).tasks, t.client = c := by
  cases hs : subLookup c subs with
  | none => simp [prepClient, hs]
  | some sub =>
      cases hm : env.metricsFetch c with
      | ok v => cases v <;> simp [prepClient, hs, hm]
      | timeout => simp [prepClient, hs, hm]
      | exn => simp [prepClient, hs, hm]

/-- Every metrics fetch the preparation body issues for a client carries
that client. -/
theorem prepClient_reqs_client (subs : List (Client × Subscription)) (env : CycleEnv)
    (c : Client) : ∀ r ∈ (prepClient subs env c).reqs, r.client = c := by
  cases hs : subLookup c subs with
  | none => simp [prepClient, hs]
  | some sub =>
      cases hm : env.metricsFetch c with
      | ok v => cases v <;> simp [prepClient, hs, hm]
      | timeout => simp [prepClient, hs, hm]
      | exn => simp [prepClient, hs, hm]

/-- The preparation body queues either just the snapshot task or the
snapshot task followed by the greeks task. -/
theorem prepClient_tasks_cases (subs : List (Client × Subscription)) (env : CycleEnv)
    (c : Client) :
    (prepClient subs env c).tasks = [⟨c, .snapshot⟩] ∨
      (prepClient subs env c).tasks = [⟨c, .snapshot⟩, ⟨c, .greeks⟩] := by
  cases hs : subLookup c subs with
  | none => simp [prepClient, hs]
  | some sub =>
      cases hm : env.metricsFetch c with
      | ok v => cases v <;> simp [prepClient, hs, hm]
      | timeout => simp [prepClient, hs, hm]
      | exn => simp [prepClient, hs, hm]

/-- Send tasks queued by the loop belong to iterated clients. -/
theorem prepLoop_tasks_client (subs : List (Client × Subscription)) (env : CycleEnv)
    (cs : List Client) : ∀ t ∈ (prepLoop subs env cs).tasks, t.client ∈ cs := by
  induction cs with
  | nil => simp [prepLoop_nil]
  | cons a cs ih =>
      intro t ht
      rw [prepLoop_cons] at ht
      rcases List.mem_append.mp ht with h | h
      · rw [prepClient_tasks_client subs env a t h]
        exact List.mem_cons_self a cs
      · exact List.mem_cons_of_mem a (ih t h)

/-- Metrics fetches issued by the loop belong to iterated clients. -/
theorem prepLoop_reqs_client (subs : List (Client × Subscription)) (env : CycleEnv)
    (cs : List Client) : ∀ r ∈ (prepLoop subs env cs).reqs, r.client ∈ cs := by
  induction cs with
  | nil => simp [prepLoop_nil]
  | cons a cs ih =>
      intro r hr
      rw [prepLoop_cons] at hr
      rcases List.mem_append.mp hr with h | h
      · rw [prepClient_reqs_client subs env a r h]
        exact List.mem_cons_self a cs
      · exact List.mem_cons_of_mem a (ih r h)

/-- Over a duplicate-free client list, a client's send tasks in the
whole loop are exactly its own preparation body's tasks. -/
theorem tasksFor_prepLoop (subs : List (Client × Subscription)) (env : CycleEnv)
    (c : Client) (cs : List Client) (hnd : cs.Nodup) :
    tasksFor c (prepLoop subs env cs).tasks =
      if c ∈ cs then (prepClient subs env c).tasks else [] := by
  induction cs with
  | nil => simp [prepLoop_nil, tasksFor]
  | cons a cs ih =>
      have ha : a ∉ cs := (List.nodup_cons.mp hnd).1
      have hnd2 : cs.Nodup := (List.nodup_cons.mp hnd).2
      rw [prepLoop_cons]
      unfold tasksFor
      rw [List.filter_append]
      by_cases hac : c = a
      · subst hac
        rw [filter_key_self SendTask.client c _ (prepClient_tasks_client subs env c)]
        rw [filter_key_nil SendTask.client c _
          (fun t ht heq => ha (heq ▸ prepLoop_tasks_client subs env cs t ht))]
        simp
      · rw [filter_key_nil SendTask.client c _
          (fun t ht heq => hac ((prepClient_tasks_client subs env a t ht ▸ heq).symm))]
        rw [show (prepLoop subs env cs).tasks.filter (fun t => decide (t.client = c)) =
          tasksFor c (prepLoop subs env cs).tasks from rfl]
        rw [ih hnd2]
        simp [List.mem_cons, hac]

/-- Over a duplicate-free client list, a client's metrics fetches in
the whole loop are exactly its own preparation body's fetches. -/
theorem reqsFor_prepLoop (subs : List (Client × Subscription)) (env : CycleEnv)
    (c : Client) (cs : List Client) (hnd : cs.Nodup) :
    reqsFor c (prepLoop subs env cs).reqs =
      if c ∈ cs then (prepClient subs env c).reqs else [] := by
  induction cs with
  | nil => simp [prepLoop_nil, reqsFor]
  | cons a cs ih =>
      have ha : a ∉ cs := (List.nodup_cons.mp hnd).1
      have hnd2 : cs.Nodup := (List.nodup_cons.mp hnd).2
      rw [prepLoop_cons]
      unfold reqsFor
      rw [List.filter_append]
      by_cases hac : c = a
      · subst hac
        rw [filter_key_self MetricsReq.client c _ (prepClient_reqs_client subs env c)]
        rw [filter_key_nil MetricsReq.client c _
          (fun r hr heq => ha (heq ▸ prepLoop_reqs_client subs env cs r hr))]
        simp
      · rw [filter_key_nil MetricsReq.client c _
          (fun r hr heq => hac ((prepClient_reqs_client subs env a r hr ▸ heq).symm))]
        rw [show (prepLoop subs env cs).reqs.filter (fun r => decide (r.client = c)) =
          reqsFor c (prepLoop subs env cs).reqs from rfl]
        rw [ih hnd2]
        simp [List.mem_cons, hac]

/-- Evaluation of one successful, non-empty cycle. -/
theorem broadcastCycle_ok_eq (st : WsState) (env : CycleEnv) (snap : Snapshot)
    (hf : env.fetch = .ok snap) (hne : ¬ totalOptions snap = 0) :
    broadcastCycle st env =
      ⟨⟨st.connected_clients.filter
          (fun c => decide (c ∉ (prepLoop st.client_subscriptions env st.connected_clients).dead)),
        st.client_subscriptions.filter
          (fun p => decide (p.1 ∉ (prepLoop st.client_subscriptions env st.connected_clients).dead)),
        some snap⟩,
       (prepLoop st.client_subscriptions env st.connected_clients).tasks.filter
          (fun t => decide (sendOutcomeOf env t = .ok)),
       (prepLoop st.client_subscriptions env st.connected_clients).tasks,
       (prepLoop st.client_subscriptions env st.connected_clients).reqs,
       30⟩ := by
  unfold broadcastCycle
  rw [hf]
  simp [hne]

/-- Evaluation of a successful but empty cycle. -/
theorem broadcastCycle_ok_zero (st : WsState) (env : CycleEnv) (snap : Snapshot)
    (hf : env.fetch = .ok snap) (h0 : totalOptions snap = 0) :
    broadcastCycle st env = ⟨{ st with last_snapshot := some snap }, [], [], [], 30⟩ := by
  unfold broadcastCycle
  rw [hf]
  simp [h0]

/-! ### Claims -/

/-- C1: the claim asserts that a client whose snapshot or greeks send
fails on a closed channel or exceeds the 5-unit per-send timeout is
removed from both registries by the time the cycle completes. In the
code the sends are queued coroutines executed later by
`asyncio.gather(..., return_exceptions=True)`, so send failures surface
only in the gather results, where they are merely logged; the
`except` branches that do `dead.add(client)` sit around the preparation
loop, which never awaits a send. Evaluated here: one connected,
subscribed client whose snapshot send times out — nothing is delivered
to it, yet after the cycle it is still in `connected_clients` and still
has its `client_subscriptions` entry. -/
theorem C1_send_timeout_client_not_removed :
    (broadcastCycle ⟨[c0], [(c0, subA)], none⟩ envSendTimeout).delivered = [] ∧
    (broadcastCycle ⟨[c0], [(c0, subA)], none⟩ envSendTimeout).state.connected_clients
        = [c0] ∧
    subLookup c0
        (broadcastCycle ⟨[c0], [(c0, subA)], none⟩ envSendTimeout).state.client_subscriptions
        = some subA := by
  decide

/-- C2 counterexample: the no-orphan invariant does not hold at every
state reachable by interleaving the session operations with the
scheduler's dead-client cleanup. `orphanState` is reached by: connect,
subscribe, a broadcast cycle that reaps the client (its metrics fetch
raised, so it was marked dead and removed from both registries), and
then a further subscribe processed by the client's still-running receive
loop — which re-creates a `client_subscriptions` entry for a client no
longer in `connected_clients`. -/
theorem C2_orphan_reachable : ¬ RegInv orphanState := by
  decide

/-- C2 (amended): every registry operation — connect, unsubscribe,
disconnect cleanup, scheduler dead-client cleanup — preserves the
no-orphan invariant unconditionally, and subscribe preserves it provided
the subscribing client is still in `connected_clients`; since both
cleanup operations filter the two registries by the same clients, every
removal from `connected_clients` is paired with removal of that
client's `client_subscriptions` entry (the preserved invariant's
contrapositive). -/
theorem C2_guarded_ops_preserve_no_orphans (st : WsState) (op : RegOp)
    (hinv : RegInv st) (hg : subGuard op st = true) :
    RegInv (applyOp st op) := by
  cases op with
  | connect c =>
      intro p hp
      have hm := hinv p hp
      simp only [applyOp, setAdd]
      split
      · exact hm
      · exact List.mem_append_left _ hm
  | subscribe c sub =>
      intro p hp
      simp only [applyOp] at hp
      simp only [subGuard, decide_eq_true_eq] at hg
      rcases mem_dictInsert st.client_subscriptions c sub p hp with h | h
      · rw [h]
        exact hg
      · exact hinv p h
  | unsubscribe c =>
      intro p hp
      simp only [applyOp, dictPop] at hp
      exact hinv p (List.mem_filter.mp hp).1
  | disconnectCleanup c =>
      intro p hp
      simp only [applyOp, cleanup, dictPop, setDiscard] at hp ⊢
      have h1 := List.mem_filter.mp hp
      exact List.mem_filter.mpr ⟨hinv p h1.1, h1.2⟩
  | schedulerCleanup dead =>
      intro p hp
      simp only [applyOp] at hp ⊢
      have h1 := List.mem_filter.mp hp
      exact List.mem_filter.mpr ⟨hinv p h1.1, h1.2⟩

/-- Witness for the amended C2 at a concrete state and operation. -/
theorem C2_guarded_ops_preserve_no_orphans_witness :
    RegInv (applyOp ⟨[c0], [], none⟩ (.subscribe c0 subA)) :=
  C2_guarded_ops_preserve_no_orphans ⟨[c0], [], none⟩ (.subscribe c0 subA)
    (by decide) (by decide)

/-- C3: when the snapshot fetch times out, the cycle leaves the whole
state unchanged (in particular `_last_snapshot`), queues no sends,
delivers nothing, issues no metrics fetches, and sleeps the normal 30
units before the next cycle — the loop body returns normally, so the
scheduler neither busy-loops nor terminates. -/
theorem C3_fetch_timeout_skips_cycle (st : WsState) (env : CycleEnv)
    (h : env.fetch = .timeout) :
    broadcastCycle st env = ⟨st, [], [], [], 30⟩ := by
  unfold broadcastCycle
  rw [h]

/-- Witness for C3 at a concrete state and cycle. -/
theorem C3_fetch_timeout_skips_cycle_witness :
    broadcastCycle ⟨[c0], [(c0, subA)], some snap1⟩ envFetchTimeout =
      ⟨⟨[c0], [(c0, subA)], some snap1⟩, [], [], [], 30⟩ :=
  C3_fetch_timeout_skips_cycle ⟨[c0], [(c0, subA)], some snap1⟩ envFetchTimeout rfl

/-- C4: every per-expiry row list of a snapshot produced by
`get_latest_snapshot` is sorted by (strike ascending, then type), and is
a permutation of the rows gathered for that expiry — the sort is the
stable `list.sort` on the key `(strike, type)` and the whole
construction is a pure function of the input rows, hence deterministic. -/
theorem C4_snapshot_rows_sorted (ts : String)
    (dbres : Except PyErr (List DBRow × List DBRow))
    (p : String × List ContractRow)
    (hp : p ∈ expiriesOf (get_latest_snapshot ts dbres)) :
    List.Sorted rowLE p.2 ∧
      ∃ q ∈ buildExpiries (rowsOf dbres), p.1 = q.1 ∧ p.2.Perm q.2 := by
  cases dbres with
  | ok rows =>
      simp only [get_latest_snapshot, expiriesOf, sortExpiries] at hp
      rcases List.mem_map.mp hp with ⟨q, hq, hpq⟩
      subst hpq
      exact ⟨List.sorted_insertionSort rowLE q.2, q, hq, rfl,
        List.perm_insertionSort rowLE q.2⟩
  | error e =>
      cases h : isCaughtByQueryHandlers e <;>
        simp [get_latest_snapshot, expiriesOf, h] at hp

/-- Witness for C4: rows arriving as (24100 CE, 24000 CE, 24000 PE) come
out of the snapshot sorted as (24000 CE, 24000 PE, 24100 CE). -/
theorem C4_snapshot_rows_sorted_witness :
    List.Sorted rowLE [contractRowOfDB dbr2, contractRowOfDB dbr3, contractRowOfDB dbr1] :=
  (C4_snapshot_rows_sorted "10:00:00" (.ok ([dbr1, dbr2], [dbr3]))
    ("2026-02-24", [contractRowOfDB dbr2, contractRowOfDB dbr3, contractRowOfDB dbr1])
    (by decide)).1

/-- C5: subscribing overwrites the previous subscription, so after a
client subscribes to `a` and then to `b`, a subsequent successful,
non-empty broadcast cycle issues exactly one metrics fetch for that
client, and it is for `b`'s symbol and expiry — never `a`'s. -/
theorem C5_subscribe_overwrites (st : WsState) (c : Client) (a b : Subscription)
    (env : CycleEnv) (snap : Snapshot)
    (hnd : st.connected_clients.Nodup) (hc : c ∈ st.connected_clients)
    (hf : env.fetch = .ok snap) (hne : ¬ totalOptions snap = 0) :
    reqsFor c (broadcastCycle
        (applyOp (applyOp st (.subscribe c a)) (.subscribe c b)) env).reqs =
      [⟨c, b.symbol, b.expiry⟩] := by
  have hsubs : subLookup c (dictInsert (dictInsert st.client_subscriptions c a) c b)
      = some b := subLookup_dictInsert_self _ c b
  rw [broadcastCycle_ok_eq _ env snap hf hne]
  simp only [applyOp]
  rw [reqsFor_prepLoop _ env c _ hnd, if_pos hc]
  unfold prepClient
  rw [hsubs]
  cases hm : env.metricsFetch c with
  | ok v => cases v <;> simp
  | timeout => simp
  | exn => simp

/-- Witness for C5 at a concrete state: the one fetch issued is for
`subB`'s symbol and expiry. -/
theorem C5_subscribe_overwrites_witness :
    reqsFor c0 (broadcastCycle
        (applyOp (applyOp ⟨[c0], [], none⟩ (.subscribe c0 subA)) (.subscribe c0 subB))
        envAllOk).reqs =
      [⟨c0, "NIFTY24100CE", "2026-03-03"⟩] :=
  C5_subscribe_overwrites ⟨[c0], [], none⟩ c0 subA subB envAllOk snap1
    (by decide) (by decide) rfl (by decide)

/-- C6: within one broadcast cycle, the send tasks queued for any one
client form a subsequence of [snapshot, greeks] — the snapshot message
is always queued before the (optional) greeks message — and the messages
actually delivered to that client are likewise such a subsequence, so a
client that receives both receives the snapshot first; the statement
constrains each client's own sequence only, no cross-client order. -/
theorem C6_snapshot_precedes_greeks (st : WsState) (env : CycleEnv) (c : Client)
    (hnd : st.connected_clients.Nodup) :
    List.Sublist (tasksFor c (broadcastCycle st env).tasks)
        [⟨c, .snapshot⟩, ⟨c, .greeks⟩] ∧
      List.Sublist (tasksFor c (broadcastCycle st env).delivered)
        [⟨c, .snapshot⟩, ⟨c, .greeks⟩] := by
  have hdel : List.Sublist (broadcastCycle st env).delivered (broadcastCycle st env).tasks := by
    cases hf : env.fetch with
    | timeout =>
        rw [C3_fetch_timeout_skips_cycle st env hf]
    | exn =>
        unfold broadcastCycle
        rw [hf]
    | ok snap =>
        by_cases h0 : totalOptions snap = 0
        · rw [broadcastCycle_ok_zero st env snap hf h0]
        · rw [broadcastCycle_ok_eq st env snap hf h0]
          exact List.filter_sublist _
  have htasks : List.Sublist (tasksFor c (broadcastCycle st env).tasks)
      [⟨c, .snapshot⟩, ⟨c, .greeks⟩] := by
    cases hf : env.fetch with
    | timeout =>
        rw [C3_fetch_timeout_skips_cycle st env hf]
        exact List.nil_sublist _
    | exn =>
        unfold broadcastCycle
        rw [hf]
        exact List.nil_sublist _
    | ok snap =>
        by_cases h0 : totalOptions snap = 0
        · rw [broadcastCycle_ok_zero st env snap hf h0]
          exact List.nil_sublist _
        · rw [broadcastCycle_ok_eq st env snap hf h0]
          show List.Sublist
            (tasksFor c (prepLoop st.client_subscriptions env st.connected_clients).tasks)
            [⟨c, .snapshot⟩, ⟨c, .greeks⟩]
          rw [tasksFor_prepLoop _ env c _ hnd]
          split
          · rcases prepClient_tasks_cases st.client_subscriptions env c with h | h
            · rw [h]
              exact (List.nil_sublist _).cons₂ _
            · rw [h]
          · exact List.nil_sublist _
  exact ⟨htasks, (hdel.filter _).trans htasks⟩

/-- Witness for C6 at a concrete state and cycle. -/
theorem C6_snapshot_precedes_greeks_witness :
    List.Sublist (tasksFor c0 (broadcastCycle ⟨[c0], [(c0, subA)], none⟩ envAllOk).tasks)
        [⟨c0, .snapshot⟩, ⟨c0, .greeks⟩] ∧
      List.Sublist
        (tasksFor c0 (broadcastCycle ⟨[c0], [(c0, subA)], none⟩ envAllOk).delivered)
        [⟨c0, .snapshot⟩, ⟨c0, .greeks⟩] :=
  C6_snapshot_precedes_greeks ⟨[c0], [(c0, subA)], none⟩ envAllOk c0 (by decide)

/-- C7: a well-formed subscribe (both fields present and non-empty)
whose immediate metrics fetch finds no record yields exactly one info
message ("Subscribed - waiting for next update"), no greeks message, a
still-open connection, and the client's subscription entry set to the
requested symbol and expiry. -/
theorem C7_subscribe_no_record_info (st : WsState) (c : Client) (data : Inbound)
    (env : SessionEnv) (s e : String)
    (hsub : data.hasSubscribe = true) (hs : data.subscribeVal = some s)
    (hsne : s ≠ "") (he : data.expiryVal = some e) (hene : e ≠ "")
    (hm : env.metricsRes = .ok none) (hsend : env.sendRes = .ok) :
    sessionStep st c (.message (some data)) env =
        ⟨{ st with client_subscriptions := dictInsert st.client_subscriptions c ⟨s, e⟩ },
          [.infoMsg "Subscribed - waiting for next update"], .open_⟩ ∧
      subLookup c
          (sessionStep st c (.message (some data)) env).state.client_subscriptions
        = some ⟨s, e⟩ := by
  have heq : sessionStep st c (.message (some data)) env =
      ⟨{ st with client_subscriptions := dictInsert st.client_subscriptions c ⟨s, e⟩ },
        [.infoMsg "Subscribed - waiting for next update"], .open_⟩ := by
    simp [sessionStep, hsub, hs, he, truthy, hsne, hene, hm, hsend]
  refine ⟨heq, ?_⟩
  rw [heq]
  exact subLookup_dictInsert_self st.client_subscriptions c ⟨s, e⟩

/-- Witness for C7 at a concrete state and message. -/
theorem C7_subscribe_no_record_info_witness :
    sessionStep ⟨[c0], [], none⟩ c0 msgSubscribeA ⟨.ok none, .ok⟩ =
      ⟨⟨[c0], [(c0, subA)], none⟩,
        [.infoMsg "Subscribed - waiting for next update"], .open_⟩ :=
  (C7_subscribe_no_record_info ⟨[c0], [], none⟩ c0 _ _ "NIFTY24000CE" "2026-02-24"
    rfl rfl (by decide) rfl (by decide) rfl rfl).1

/-- C8 counterexample: the claim asserts every database/collaborator
error degrades gracefully, but the fetch functions catch only
`(ValueError, KeyError)`; at a database-driver error both
`get_latest_snapshot` and `get_option_latest` re-raise to their caller
instead of returning the empty snapshot / not-found result. -/
theorem C8_db_error_raises :
    get_latest_snapshot "10:00:00" (Except.error PyErr.dbError) =
        Except.error PyErr.dbError ∧
      get_option_latest "NIFTY24000CE" "2026-02-24" (Except.error PyErr.dbError) =
        Except.error PyErr.dbError :=
  ⟨rfl, rfl⟩

/-- C8 (amended): for the errors the fetch layer actually catches —
`ValueError` and `KeyError` — the fetch degrades gracefully instead of
raising: `get_latest_snapshot` returns a snapshot with an empty expiries
mapping and `get_option_latest` returns the not-found result (both are
logged in the source); other exceptions propagate to the caller. -/
theorem C8_caught_errors_degrade (ts symbol expiry : String) (e : PyErr)
    (h : isCaughtByQueryHandlers e = true) :
    get_latest_snapshot ts (Except.error e) = Except.ok ⟨ts, []⟩ ∧
      get_option_latest symbol expiry (Except.error e) = Except.ok none := by
  constructor <;> simp [get_latest_snapshot, get_option_latest, h]

/-- Witness for the amended C8 at a concrete caught error. -/
theorem C8_caught_errors_degrade_witness :
    get_latest_snapshot "10:00:00" (Except.error PyErr.valueError) =
        Except.ok ⟨"10:00:00", []⟩ ∧
      get_option_latest "NIFTY24000CE" "2026-02-24" (Except.error PyErr.valueError) =
        Except.ok none :=
  C8_caught_errors_degrade "10:00:00" "NIFTY24000CE" "2026-02-24" PyErr.valueError rfl

/-- C9: a well-formed JSON message containing none of the keys
`subscribe`, `unsubscribe`, `pong` falls through the handler's if/elif
chain: no reply of any kind is sent, both registries and the cache are
untouched, and the receive loop stays open. -/
theorem C9_unknown_message_is_noop (st : WsState) (c : Client) (data : Inbound)
    (env : SessionEnv) (h1 : data.hasSubscribe = false)
    (h2 : data.hasUnsubscribe = false) (h3 : data.hasPong = false) :
    sessionStep st c (.message (some data)) env = ⟨st, [], .open_⟩ := by
  simp [sessionStep, h1, h2, h3]

/-- Witness for C9 at a concrete state and message. -/
theorem C9_unknown_message_is_noop_witness :
    sessionStep ⟨[c0], [(c0, subA)], none⟩ c0
        (.message (some ⟨false, none, none, false, false⟩)) ⟨.ok none, .ok⟩ =
      ⟨⟨[c0], [(c0, subA)], none⟩, [], .open_⟩ :=
  C9_unknown_message_is_noop ⟨[c0], [(c0, subA)], none⟩ c0
    ⟨false, none, none, false, false⟩ ⟨.ok none, .ok⟩ rfl rfl rfl

/-- C10: when the immediate post-subscribe metrics fetch times out, the
`except asyncio.TimeoutError` branch only logs: the client gets neither
a greeks nor an info message, the subscription entry written just before
the fetch stays set, and the connection stays open. -/
theorem C10_immediate_fetch_timeout (st : WsState) (c : Client) (data : Inbound)
    (env : SessionEnv) (s e : String)
    (hsub : data.hasSubscribe = true) (hs : data.subscribeVal = some s)
    (hsne : s ≠ "") (he : data.expiryVal = some e) (hene : e ≠ "")
    (hm : env.metricsRes = .timeout) :
    sessionStep st c (.message (some data)) env =
        ⟨{ st with client_subscriptions := dictInsert st.client_subscriptions c ⟨s, e⟩ },
          [], .open_⟩ ∧
      subLookup c
          (sessionStep st c (.message (some data)) env).state.client_subscriptions
        = some ⟨s, e⟩ := by
  have heq : sessionStep st c (.message (some data)) env =
      ⟨{ st with client_subscriptions := dictInsert st.client_subscriptions c ⟨s, e⟩ },
        [], .open_⟩ := by
    simp [sessionStep, hsub, hs, he, truthy, hsne, hene, hm]
  refine ⟨heq, ?_⟩
  rw [heq]
  exact subLookup_dictInsert_self st.client_subscriptions c ⟨s, e⟩

/-- Witness for C10 at a concrete state and message. -/
theorem C10_immediate_fetch_timeout_witness :
    sessionStep ⟨[c0], [], none⟩ c0 msgSubscribeA ⟨.timeout, .ok⟩ =
      ⟨⟨[c0], [(c0, subA)], none⟩, [], .open_⟩ :=
  (C10_immediate_fetch_timeout ⟨[c0], [], none⟩ c0 _ _ "NIFTY24000CE" "2026-02-24"
    rfl rfl (by decide) rfl (by decide) rfl).1

end RiskMonitor
